import Mathlib

/-!
Verification of the mesh-to-fit-to-pattern pipeline
(`server/fit_analysis.py`, `server/pattern_generator.py`,
`server/garment_model.py`, `server/mesh_processing.py`).

The Python source is shallowly embedded: machine floats become exact
rationals (`ℚ`), numpy arrays become lists, Python dicts become
insertion-ordered association lists, and Python enums become inductive
types.  Quantities that the source obtains from `scipy.spatial.cKDTree`
queries or from normal-vector normalisation (both involving square
roots, hence irrational) are passed to the embedded functions as inputs,
constrained by the hypotheses that characterise them (e.g. a queried
distance `d` satisfies `0 ≤ d` and `d * d` equals the squared norm of
the difference vector).  Presentation-only fields (free-text
descriptions, SVG labels) are omitted from the records.
-/

set_option maxRecDepth 10000

/-- Three-dimensional point with exact rational coordinates
(embedding of a numpy float64 triplet). -/
structure Vec3 where
  x : ℚ
  y : ℚ
  z : ℚ
deriving DecidableEq, Repr

namespace Vec3

def sub (a b : Vec3) : Vec3 := ⟨a.x - b.x, a.y - b.y, a.z - b.z⟩

def dot (a b : Vec3) : ℚ := a.x * b.x + a.y * b.y + a.z * b.z

/-- Squared euclidean norm. -/
def quad (a : Vec3) : ℚ := a.x * a.x + a.y * a.y + a.z * a.z

def zero : Vec3 := ⟨0, 0, 0⟩

end Vec3

/-- Embedding of `numpy.sign` restricted to rational inputs. -/
def npSign (q : ℚ) : ℚ :=
  if 0 < q then 1 else if q < 0 then -1 else 0

/-- Embedding of `MeshUnit` from `mesh_processing.py`. -/
inductive MeshUnit where
  | MILLIMETERS
  | CENTIMETERS
  | METERS
  | INCHES
  | UNKNOWN
deriving DecidableEq, Repr

/-- Embedding of `MeshProcessor._detect_units` (mesh_processing.py lines
230-247): decide the unit of a mesh from its bounding-box dimensions. -/
def detect_units (dimensions : Vec3) : MeshUnit :=
  let max_dim := max dimensions.x (max dimensions.y dimensions.z)
  if max_dim > 500 then MeshUnit.MILLIMETERS
  else if max_dim > 50 then MeshUnit.CENTIMETERS
  else if max_dim > (1 : ℚ) / 2 then MeshUnit.METERS
  else MeshUnit.MILLIMETERS

/-- Embedding of `FitIssueType` from `fit_analysis.py`. -/
inductive FitIssueType where
  | COMPRESSION
  | GAP
  | TOO_SHORT
  | MOVEMENT_CONFLICT
  | SEAM_STRESS
deriving DecidableEq, Repr

/-- Embedding of `FitIssueSeverity` from `fit_analysis.py`. -/
inductive FitIssueSeverity where
  | MINOR
  | MODERATE
  | SEVERE
  | CRITICAL
deriving DecidableEq, Repr

/-- The `.value` string of each `FitIssueSeverity` member, as defined in
the Python `Enum`. -/
def sevValue : FitIssueSeverity → String
  | FitIssueSeverity.MINOR => "minor"
  | FitIssueSeverity.MODERATE => "moderate"
  | FitIssueSeverity.SEVERE => "severe"
  | FitIssueSeverity.CRITICAL => "critical"

/-- Embedding of `BodyZone` from `fit_analysis.py`. -/
inductive BodyZone where
  | SHOULDERS
  | BUST
  | WAIST
  | HIPS
  | CROTCH
  | THIGHS
  | KNEES
  | CALVES
  | ANKLES
  | TORSO_FRONT
  | TORSO_BACK
deriving DecidableEq, Repr

/-- Embedding of `BodyLandmark` from `body_model.py`. -/
inductive BodyLandmark where
  | TOP_OF_HEAD
  | NECK_BASE
  | LEFT_SHOULDER
  | RIGHT_SHOULDER
  | SHOULDER_CENTER
  | BUST_APEX_LEFT
  | BUST_APEX_RIGHT
  | UNDERBUST
  | WAIST
  | HIGH_HIP
  | HIP
  | CROTCH
  | LEFT_KNEE
  | RIGHT_KNEE
  | LEFT_ANKLE
  | RIGHT_ANKLE
  | LEFT_ELBOW
  | RIGHT_ELBOW
  | LEFT_WRIST
  | RIGHT_WRIST
deriving DecidableEq, Repr

/-- Embedding of a `FitIssue` (fit_analysis.py lines 53-73).  The
free-text `description` field is presentation-only and omitted. -/
structure FitIssue where
  issue_type : FitIssueType
  severity : FitIssueSeverity
  body_zone : BodyZone
  location : Vec3
  amount : ℚ
  affected_vertices : List ℕ := []
deriving DecidableEq, Repr

/-- Per-severity score deduction table of `_compute_fit_score`
(fit_analysis.py lines 742-747). -/
def severityDeduction : FitIssueSeverity → ℚ
  | FitIssueSeverity.MINOR => 3
  | FitIssueSeverity.MODERATE => 8
  | FitIssueSeverity.SEVERE => 15
  | FitIssueSeverity.CRITICAL => 25

/-- Embedding of `FitAnalyzer._compute_fit_score` (fit_analysis.py lines
728-751). -/
def compute_fit_score (issues : List FitIssue) : ℚ :=
  if issues = [] then 100
  else
    let total_deduction := (issues.map (fun i => severityDeduction i.severity)).sum
    max 0 (100 - total_deduction)

theorem severityDeduction_ge_three (s : FitIssueSeverity) :
    3 ≤ severityDeduction s := by
  cases s <;> norm_num [severityDeduction]

/-- C2: for every issue list the fit score is 100 minus the summed
per-severity penalties (3/8/15/25), floored at 0; it equals 100 exactly
when the issue list is empty; and appending an issue never increases
it. -/
theorem fit_score_formula (issues : List FitIssue) :
    compute_fit_score issues
      = max 0 (100 - (issues.map (fun i => severityDeduction i.severity)).sum)
    ∧ (compute_fit_score issues = 100 ↔ issues = [])
    ∧ ∀ i : FitIssue,
        compute_fit_score (issues ++ [i]) ≤ compute_fit_score issues := by
  refine ⟨?_, ⟨?_, ?_⟩, ?_⟩
  · by_cases h : issues = []
    · subst h; simp [compute_fit_score]
    · simp [compute_fit_score, h]
  · intro h
    by_cases hi : issues = []
    · exact hi
    · exfalso
      simp only [compute_fit_score, hi, if_false] at h
      rcases issues with _ | ⟨a, l⟩
      · exact hi rfl
      · have hsum : 3 ≤ ((a :: l).map (fun i => severityDeduction i.severity)).sum := by
          have h1 := severityDeduction_ge_three a.severity
          have h2 : 0 ≤ (l.map (fun i => severityDeduction i.severity)).sum := by
            apply List.sum_nonneg
            intro q hq
            rcases List.mem_map.mp hq with ⟨j, _, rfl⟩
            have := severityDeduction_ge_three j.severity
            linarith
          simp only [List.map_cons, List.sum_cons]
          linarith
        have hle : (100 : ℚ) - ((a :: l).map (fun i => severityDeduction i.severity)).sum ≤ 97 := by
          linarith
        have : max 0 (100 - ((a :: l).map (fun i => severityDeduction i.severity)).sum) ≤ 97 := by
          apply max_le <;> linarith
        rw [h] at this
        linarith
  · intro h; subst h; simp [compute_fit_score]
  · intro i
    by_cases h : issues = []
    · subst h
      simp only [compute_fit_score, List.nil_append]
      have h1 := severityDeduction_ge_three i.severity
      have : max 0 (100 - ([i].map (fun j => severityDeduction j.severity)).sum) ≤ 100 := by
        apply max_le
        · norm_num
        · simp only [List.map_cons, List.map_nil, List.sum_cons, List.sum_nil]
          linarith
      simpa using this
    have happ : issues ++ [i] ≠ [] := by simp
    simp only [compute_fit_score, h, happ, if_false]
    apply max_le
    · exact le_max_left _ _
    · have h2 : 0 ≤ severityDeduction i.severity := by
        have := severityDeduction_ge_three i.severity; linarith
      have : ((issues ++ [i]).map (fun j => severityDeduction j.severity)).sum
          = (issues.map (fun j => severityDeduction j.severity)).sum
            + severityDeduction i.severity := by
        simp
      rw [this]
      have : (100 : ℚ) - ((issues.map (fun j => severityDeduction j.severity)).sum
            + severityDeduction i.severity)
          ≤ 100 - (issues.map (fun j => severityDeduction j.severity)).sum := by
        linarith
      exact le_trans this (le_max_right _ _)

/-- C9: unit detection is decided solely by the maximum bounding-box
dimension `d`: millimeters when `d > 500`, centimeters when
`50 < d ≤ 500`, meters when `1/2 < d ≤ 50`, millimeters (default) when
`d ≤ 1/2`; two dimension triples with the same maximum get the same
unit. -/
theorem detect_units_by_max_dim (dims dims' : Vec3) :
    (max dims.x (max dims.y dims.z) > 500
        → detect_units dims = MeshUnit.MILLIMETERS)
    ∧ (50 < max dims.x (max dims.y dims.z) ∧ max dims.x (max dims.y dims.z) ≤ 500
        → detect_units dims = MeshUnit.CENTIMETERS)
    ∧ ((1 : ℚ) / 2 < max dims.x (max dims.y dims.z) ∧ max dims.x (max dims.y dims.z) ≤ 50
        → detect_units dims = MeshUnit.METERS)
    ∧ (max dims.x (max dims.y dims.z) ≤ (1 : ℚ) / 2
        → detect_units dims = MeshUnit.MILLIMETERS)
    ∧ (max dims.x (max dims.y dims.z) = max dims'.x (max dims'.y dims'.z)
        → detect_units dims = detect_units dims') := by
  refine ⟨?_, ?_, ?_, ?_, ?_⟩
  · intro h
    simp only [detect_units, h, if_pos]
  · rintro ⟨h1, h2⟩
    have hn : ¬ (max dims.x (max dims.y dims.z) > 500) := by linarith
    simp only [detect_units, hn, if_false, h1, if_pos]
  · rintro ⟨h1, h2⟩
    have hn1 : ¬ (max dims.x (max dims.y dims.z) > 500) := by linarith
    have hn2 : ¬ (max dims.x (max dims.y dims.z) > 50) := by linarith
    simp only [detect_units, hn1, if_false, hn2, h1, if_pos]
  · intro h
    have hn1 : ¬ (max dims.x (max dims.y dims.z) > 500) := by linarith
    have hn2 : ¬ (max dims.x (max dims.y dims.z) > 50) := by linarith
    have hn3 : ¬ (max dims.x (max dims.y dims.z) > (1 : ℚ) / 2) := by linarith
    simp only [detect_units, hn1, if_false, hn2, hn3]
  · intro h
    simp only [detect_units, h]

/-- Witness for C9: the four bands attained at concrete dimension
triples. -/
theorem detect_units_by_max_dim_witness :
    detect_units ⟨600, 10, 10⟩ = MeshUnit.MILLIMETERS
    ∧ detect_units ⟨100, 1, 1⟩ = MeshUnit.CENTIMETERS
    ∧ detect_units ⟨2, 1, 1⟩ = MeshUnit.METERS
    ∧ detect_units ⟨1/10, 1/10, 1/10⟩ = MeshUnit.MILLIMETERS := by
  refine ⟨?_, ?_, ?_, ?_⟩
  · exact (detect_units_by_max_dim ⟨600, 10, 10⟩ ⟨600, 10, 10⟩).1 (by norm_num)
  · exact (detect_units_by_max_dim ⟨100, 1, 1⟩ ⟨100, 1, 1⟩).2.1 (by norm_num)
  · exact (detect_units_by_max_dim ⟨2, 1, 1⟩ ⟨2, 1, 1⟩).2.2.1 (by norm_num)
  · exact (detect_units_by_max_dim ⟨1/10, 1/10, 1/10⟩ ⟨1/10, 1/10, 1/10⟩).2.2.2.1 (by norm_num)

/-- Lookup in an insertion-ordered association list, embedding Python
dict lookup for the landmark dictionary. -/
def lmLookup (lms : List (BodyLandmark × Vec3)) (k : BodyLandmark) : Option Vec3 :=
  match lms with
  | [] => none
  | (k', p) :: rest => if k' = k then some p else lmLookup rest k

/-- Embedding of `self.body` as used by `FitAnalyzer` (a `BodyModel`
from body_model.py: vertex list, landmark dictionary, vertical bounds). -/
structure BodyModelM where
  vertices : List Vec3
  landmarks : List (BodyLandmark × Vec3)
  min_y : ℚ
  height : ℚ
deriving DecidableEq, Repr

/-- One landmark-proximity test of `_classify_body_zone`: the landmark
is present and the vertex height is within `tol` of its height. -/
def lmNear (lms : List (BodyLandmark × Vec3)) (k : BodyLandmark)
    (height tol : ℚ) : Bool :=
  match lmLookup lms k with
  | some p => decide (|height - p.y| < tol)
  | none => false

/-- The relative-height fallback ladder of `_classify_body_zone`
(fit_analysis.py lines 325-341). -/
def heightLadderZone (rel_height : ℚ) : BodyZone :=
  if rel_height > 0.85 then BodyZone.SHOULDERS
  else if rel_height > 0.7 then BodyZone.BUST
  else if rel_height > 0.55 then BodyZone.WAIST
  else if rel_height > 0.4 then BodyZone.HIPS
  else if rel_height > 0.3 then BodyZone.THIGHS
  else if rel_height > 0.2 then BodyZone.KNEES
  else if rel_height > 0.1 then BodyZone.CALVES
  else BodyZone.ANKLES

/-- Embedding of `FitAnalyzer._classify_body_zone` (fit_analysis.py
lines 281-341): landmark-proximity checks in priority order, then the
relative-height ladder. -/
def classify_body_zone (body : BodyModelM) (vertex : Vec3) : BodyZone :=
  let height := vertex.y
  let rel_height := (height - body.min_y) / body.height
  let lms := body.landmarks
  if lmNear lms BodyLandmark.SHOULDER_CENTER height 100 then BodyZone.SHOULDERS
  else if lmNear lms BodyLandmark.BUST_APEX_LEFT height 100 then BodyZone.BUST
  else if lmNear lms BodyLandmark.WAIST height 100 then BodyZone.WAIST
  else if lmNear lms BodyLandmark.HIP height 100 then BodyZone.HIPS
  else if lmNear lms BodyLandmark.CROTCH height 80 then BodyZone.CROTCH
  else if lmNear lms BodyLandmark.LEFT_KNEE height 80 then BodyZone.KNEES
  else heightLadderZone rel_height

/-- The fixed set of `BodyZone` values. -/
def allBodyZones : List BodyZone :=
  [BodyZone.SHOULDERS, BodyZone.BUST, BodyZone.WAIST, BodyZone.HIPS,
   BodyZone.CROTCH, BodyZone.THIGHS, BodyZone.KNEES, BodyZone.CALVES,
   BodyZone.ANKLES, BodyZone.TORSO_FRONT, BodyZone.TORSO_BACK]

theorem mem_allBodyZones (z : BodyZone) : z ∈ allBodyZones := by
  cases z <;> simp [allBodyZones]

/-- C10: body-zone classification is total — it always returns one of
the fixed `BodyZone` values; with no detected landmarks it falls
through to the relative-height ladder, whose final branch (relative
height at most 0.1) returns the ankles zone. -/
theorem classify_body_zone_total (body : BodyModelM) (vertex : Vec3) :
    classify_body_zone body vertex ∈ allBodyZones
    ∧ (body.landmarks = [] →
        classify_body_zone body vertex
          = heightLadderZone ((vertex.y - body.min_y) / body.height))
    ∧ ∀ r : ℚ, r ≤ 0.1 → heightLadderZone r = BodyZone.ANKLES := by
  refine ⟨mem_allBodyZones _, ?_, ?_⟩
  · intro h
    simp only [classify_body_zone, h, lmNear, lmLookup]
    rfl
  · intro r hr
    have h1 : ¬ (r > 0.85) := by norm_num at hr ⊢; linarith
    have h2 : ¬ (r > 0.7) := by norm_num at hr ⊢; linarith
    have h3 : ¬ (r > 0.55) := by norm_num at hr ⊢; linarith
    have h4 : ¬ (r > 0.4) := by norm_num at hr ⊢; linarith
    have h5 : ¬ (r > 0.3) := by norm_num at hr ⊢; linarith
    have h6 : ¬ (r > 0.2) := by norm_num at hr ⊢; linarith
    have h7 : ¬ (r > 0.1) := by norm_num at hr ⊢; linarith
    simp only [heightLadderZone, h1, h2, h3, h4, h5, h6, h7, if_false]

/-- Witness for C10: at a landmark-free body of height 100 and a vertex
at height 5, classification falls through the ladder to the ankles
zone. -/
theorem classify_body_zone_total_witness :
    classify_body_zone ⟨[], [], 0, 100⟩ ⟨0, 5, 0⟩ = BodyZone.ANKLES
    ∧ classify_body_zone ⟨[], [], 0, 100⟩ ⟨0, 5, 0⟩ ∈ allBodyZones := by
  have h := classify_body_zone_total ⟨[], [], 0, 100⟩ ⟨0, 5, 0⟩
  refine ⟨?_, h.1⟩
  have h2 := h.2.1 rfl
  have h3 := h.2.2 ((5 - 0) / 100) (by norm_num)
  rw [h2]
  exact h3

/-- Embedding of the per-vertex body of the loop in
`FitAnalyzer._compute_distance_map` (fit_analysis.py lines 229-245):
given the body point, its nearest garment point (from the KD-tree
query), the averaged garment normal at that point, and the unsigned
query distance, return `-sign(dot) * dist`. -/
def signedDistanceAt (body_point garment_point normal : Vec3) (dist : ℚ) : ℚ :=
  -(npSign (Vec3.dot (Vec3.sub body_point garment_point) normal)) * dist

/-- Embedding of `FitAnalyzer._compute_distance_map` (fit_analysis.py
lines 211-247).  The nearest-neighbour indices and unsigned distances
returned by `cKDTree.query`, and the averaged vertex normals of
`_get_vertex_normal` (both irrational in general), are inputs. -/
def compute_distance_map (body_vertices garment_vertices normals : List Vec3)
    (nearest_idx : List ℕ) (nearest_dist : List ℚ) : List ℚ :=
  (List.range body_vertices.length).map (fun i =>
    let gi := nearest_idx.getD i 0
    signedDistanceAt (body_vertices.getD i Vec3.zero)
      (garment_vertices.getD gi Vec3.zero)
      (normals.getD gi Vec3.zero)
      (nearest_dist.getD i 0))

theorem Vec3.quad_eq_zero {v : Vec3} (h : Vec3.quad v = 0) : v = Vec3.zero := by
  have hx : v.x * v.x ≥ 0 := mul_self_nonneg _
  have hy : v.y * v.y ≥ 0 := mul_self_nonneg _
  have hz : v.z * v.z ≥ 0 := mul_self_nonneg _
  simp only [Vec3.quad] at h
  have hx0 : v.x = 0 := by nlinarith
  have hy0 : v.y = 0 := by nlinarith
  have hz0 : v.z = 0 := by nlinarith
  cases v
  simp_all [Vec3.zero]

/-- C1: the signed distance equals the negated sign of the dot product
between (body-point − garment-point) and the garment normal, times the
unsigned nearest-neighbour distance; when the distance is the true norm
of the difference vector, a positive dot product forces a strictly
negative (compression) value and a negative dot product a strictly
positive (gap) value. -/
theorem signed_distance_sign (b g n : Vec3) (d : ℚ)
    (hd : 0 ≤ d) (hnorm : d * d = Vec3.quad (Vec3.sub b g)) :
    signedDistanceAt b g n d = -(npSign (Vec3.dot (Vec3.sub b g) n)) * d
    ∧ (0 < Vec3.dot (Vec3.sub b g) n → signedDistanceAt b g n d < 0)
    ∧ (Vec3.dot (Vec3.sub b g) n < 0 → 0 < signedDistanceAt b g n d) := by
  have hdpos : Vec3.dot (Vec3.sub b g) n ≠ 0 → 0 < d := by
    intro hne
    rcases lt_or_eq_of_le hd with h | h
    · exact h
    · exfalso
      apply hne
      have : Vec3.quad (Vec3.sub b g) = 0 := by rw [← hnorm, ← h]; ring
      have hz := Vec3.quad_eq_zero this
      rw [hz]
      simp [Vec3.dot, Vec3.zero]
  refine ⟨rfl, ?_, ?_⟩
  · intro hpos
    have hdp : 0 < d := hdpos (ne_of_gt hpos)
    simp only [signedDistanceAt, npSign, hpos, if_pos]
    linarith
  · intro hneg
    have hdp : 0 < d := hdpos (ne_of_lt hneg)
    have hnp : ¬ (0 < Vec3.dot (Vec3.sub b g) n) := by linarith
    simp only [signedDistanceAt, npSign, hnp, if_false, hneg, if_pos]
    linarith

/-- Witness for C1: body point (3,4,0), nearest garment point at the
origin with normal (1,0,0) and query distance 5 (indeed 5² = 3² + 4²)
has a positive dot product and a strictly negative signed distance. -/
theorem signed_distance_sign_witness :
    signedDistanceAt ⟨3, 4, 0⟩ ⟨0, 0, 0⟩ ⟨1, 0, 0⟩ 5 < 0 := by
  have h := signed_distance_sign ⟨3, 4, 0⟩ ⟨0, 0, 0⟩ ⟨1, 0, 0⟩ 5
    (by norm_num) (by norm_num [Vec3.quad, Vec3.sub])
  exact h.2.1 (by norm_num [Vec3.dot, Vec3.sub])

/-- Embedding of `numpy.mean` on a rational list (never applied to an
empty list by the source; Lean's total division returns 0 there). -/
def npMean (l : List ℚ) : ℚ := l.sum / (l.length : ℚ)

/-- Embedding of `numpy.min` on a nonempty rational list. -/
def npMin (l : List ℚ) : ℚ :=
  match l with
  | [] => 0
  | x :: xs => xs.foldl min x

/-- Embedding of `numpy.max` on a nonempty rational list. -/
def npMax (l : List ℚ) : ℚ :=
  match l with
  | [] => 0
  | x :: xs => xs.foldl max x

/-- Embedding of `array.mean(axis=0)` over a list of 3D points. -/
def meanVec (l : List Vec3) : Vec3 :=
  ⟨npMean (l.map Vec3.x), npMean (l.map Vec3.y), npMean (l.map Vec3.z)⟩

/-- Threshold constants of `FitAnalyzer` (fit_analysis.py lines
141-146). -/
def COMPRESSION_THRESHOLD : ℚ := -5

def GAP_THRESHOLD_MINOR : ℚ := 20

def GAP_THRESHOLD_MODERATE : ℚ := 40

def GAP_THRESHOLD_SEVERE : ℚ := 60

/-- One zone bucket of the grouping dicts in `_find_compression_zones`
and `_find_gap_zones`: zone, vertex indices, their distances. -/
abbrev ZoneGroup := BodyZone × List ℕ × List ℚ

/-- Appending an index/distance pair to its zone bucket, creating the
bucket at the end when absent (Python dict insertion order). -/
def addToZones (z : BodyZone) (idx : ℕ) (d : ℚ) :
    List ZoneGroup → List ZoneGroup
  | [] => [(z, [idx], [d])]
  | (z', is, ds) :: rest =>
    if z' = z then (z', is ++ [idx], ds ++ [d]) :: rest
    else (z', is, ds) :: addToZones z idx d rest

/-- The zone-grouping loop shared by `_find_compression_zones`
(fit_analysis.py lines 354-361) and `_find_gap_zones` (lines
420-427). -/
def groupByZone (body : BodyModelM) (distance_map : List ℚ)
    (idxs : List ℕ) : List ZoneGroup :=
  idxs.foldl (fun acc i =>
    addToZones (classify_body_zone body (body.vertices.getD i Vec3.zero))
      i (distance_map.getD i 0) acc) []

/-- Severity ladder of `_find_compression_zones` (fit_analysis.py lines
371-379). -/
def compressionSeverity (max_compression : ℚ) : FitIssueSeverity :=
  if max_compression < -30 then FitIssueSeverity.CRITICAL
  else if max_compression < -20 then FitIssueSeverity.SEVERE
  else if max_compression < -10 then FitIssueSeverity.MODERATE
  else FitIssueSeverity.MINOR

/-- Severity ladder of `_find_gap_zones` (fit_analysis.py lines
437-443). -/
def gapSeverity (max_gap : ℚ) : FitIssueSeverity :=
  if max_gap > GAP_THRESHOLD_SEVERE then FitIssueSeverity.SEVERE
  else if max_gap > GAP_THRESHOLD_MODERATE then FitIssueSeverity.MODERATE
  else FitIssueSeverity.MINOR

/-- Issue constructed for one zone bucket by
`_find_compression_zones` (fit_analysis.py lines 364-405). -/
def compressionIssueOfGroup (body : BodyModelM) (g : ZoneGroup) : FitIssue :=
  { issue_type := FitIssueType.COMPRESSION
    severity := compressionSeverity (npMin g.2.2)
    body_zone := g.1
    location := meanVec (g.2.1.map (fun i => body.vertices.getD i Vec3.zero))
    amount := npMean g.2.2
    affected_vertices := g.2.1 }

/-- Embedding of `FitAnalyzer._find_compression_zones` (fit_analysis.py
lines 343-407). -/
def find_compression_zones (body : BodyModelM)
    (distance_map : List ℚ) : List FitIssue :=
  let compressed_indices := (List.range distance_map.length).filter
    (fun i => decide (distance_map.getD i 0 < COMPRESSION_THRESHOLD))
  if compressed_indices = [] then []
  else
    (groupByZone body distance_map compressed_indices).map
      (compressionIssueOfGroup body)

/-- Issue constructed for one zone bucket by `_find_gap_zones`
(fit_analysis.py lines 430-464). -/
def gapIssueOfGroup (body : BodyModelM) (g : ZoneGroup) : FitIssue :=
  { issue_type := FitIssueType.GAP
    severity := gapSeverity (npMax g.2.2)
    body_zone := g.1
    location := meanVec (g.2.1.map (fun i => body.vertices.getD i Vec3.zero))
    amount := npMean g.2.2
    affected_vertices := g.2.1 }

/-- Embedding of `FitAnalyzer._find_gap_zones` (fit_analysis.py lines
409-466). -/
def find_gap_zones (body : BodyModelM)
    (distance_map : List ℚ) : List FitIssue :=
  let gap_indices := (List.range distance_map.length).filter
    (fun i => decide (distance_map.getD i 0 > GAP_THRESHOLD_MINOR))
  if gap_indices = [] then []
  else
    (groupByZone body distance_map gap_indices).map (gapIssueOfGroup body)

/-- Fields of `BodyMeasurements` (body_model.py) used by the fit
analyzer's length checks. -/
structure BodyMeasurementsM where
  inseam : ℚ := 0
  outseam : ℚ := 0
  front_rise : ℚ := 0
  torso_length : ℚ := 0
deriving DecidableEq, Repr

/-- Fields of `GarmentMeasurements` (garment_model.py) used by the fit
analyzer and the pattern generator. -/
structure GarmentMeasurementsM where
  waist_circumference : ℚ := 0
  ankle_circumference : ℚ := 0
  inseam_length : ℚ := 0
  outseam_length : ℚ := 0
  front_rise : ℚ := 0
  body_length : ℚ := 0
deriving DecidableEq, Repr

/-- Embedding of `GarmentType` from `garment_model.py`. -/
inductive GarmentType where
  | PANTS
  | SHIRT
  | DRESS
  | SKIRT
  | JACKET
  | UNKNOWN
deriving DecidableEq, Repr

/-- Embedding of `FitAnalyzer._check_length` (fit_analysis.py lines
468-542). -/
def check_length (body : BodyModelM) (bm : BodyMeasurementsM)
    (gm : GarmentMeasurementsM) (gtype : GarmentType) : List FitIssue :=
  (if bm.inseam > 0 ∧ gm.inseam_length > 0 ∧ bm.inseam - gm.inseam_length > 10 then
    [{ issue_type := FitIssueType.TOO_SHORT
       severity := if bm.inseam - gm.inseam_length > 50 then FitIssueSeverity.SEVERE
         else if bm.inseam - gm.inseam_length > 25 then FitIssueSeverity.MODERATE
         else FitIssueSeverity.MINOR
       body_zone := BodyZone.ANKLES
       location := ⟨0, body.min_y, 0⟩
       amount := bm.inseam - gm.inseam_length }]
  else []) ++
  (if bm.outseam > 0 ∧ gm.outseam_length > 0 ∧ bm.outseam - gm.outseam_length > 10 then
    [{ issue_type := FitIssueType.TOO_SHORT
       severity := if bm.outseam - gm.outseam_length > 50 then FitIssueSeverity.SEVERE
         else if bm.outseam - gm.outseam_length > 25 then FitIssueSeverity.MODERATE
         else FitIssueSeverity.MINOR
       body_zone := BodyZone.ANKLES
       location := ⟨0, body.min_y, 0⟩
       amount := bm.outseam - gm.outseam_length }]
  else []) ++
  (if bm.front_rise > 0 ∧ gm.front_rise > 0 ∧ bm.front_rise - gm.front_rise > 10 then
    [{ issue_type := FitIssueType.TOO_SHORT
       severity := if bm.front_rise - gm.front_rise > 30 then FitIssueSeverity.SEVERE
         else FitIssueSeverity.MODERATE
       body_zone := BodyZone.CROTCH
       location := (lmLookup body.landmarks BodyLandmark.CROTCH).getD
         ⟨0, body.height * 0.4, 0⟩
       amount := bm.front_rise - gm.front_rise }]
  else []) ++
  (if bm.torso_length > 0 ∧ gm.body_length > 0 ∧ gtype = GarmentType.SHIRT
      ∧ bm.torso_length - gm.body_length > 20 then
    [{ issue_type := FitIssueType.TOO_SHORT
       severity := FitIssueSeverity.MODERATE
       body_zone := BodyZone.WAIST
       location := (lmLookup body.landmarks BodyLandmark.WAIST).getD
         ⟨0, body.height * 0.55, 0⟩
       amount := bm.torso_length - gm.body_length }]
  else [])

/-- Per-zone worst-case insertion of the deduplication dict in
`_check_movement_conflicts` (fit_analysis.py lines 578-584): first
occurrence of a zone is kept unless a strictly larger amount arrives. -/
def dedupInsert (issue : FitIssue) :
    List (BodyZone × FitIssue) → List (BodyZone × FitIssue)
  | [] => [(issue.body_zone, issue)]
  | (z, old) :: rest =>
    if z = issue.body_zone then
      if issue.amount > old.amount then (z, issue) :: rest
      else (z, old) :: rest
    else (z, old) :: dedupInsert issue rest

/-- Embedding of `FitAnalyzer._check_movement_conflicts`
(fit_analysis.py lines 544-586).  The KD-tree query distances for the
expanded envelope vertices are passed in. -/
def check_movement_conflicts (body : BodyModelM)
    (expanded_verts : List Vec3) (distances : List ℚ) : List FitIssue :=
  let raw := (List.range distances.length).filterMap (fun i =>
    let dist := distances.getD i 0
    if dist > 0 ∧ ¬ (dist < 20) then
      if dist > 30 then
        some { issue_type := FitIssueType.MOVEMENT_CONFLICT
               severity := FitIssueSeverity.MODERATE
               body_zone := classify_body_zone body (body.vertices.getD i Vec3.zero)
               location := expanded_verts.getD i Vec3.zero
               amount := dist }
      else none
    else none)
  (raw.foldl (fun acc i => dedupInsert i acc) []).map Prod.snd

/-- The issue-assembly portion of `FitAnalyzer.analyze` (fit_analysis.py
lines 176-196): compression, gap, length and (when a movement envelope
is supplied) movement issues, concatenated in that order. -/
def analyze_issues (body : BodyModelM) (distance_map : List ℚ)
    (bm : BodyMeasurementsM) (gm : GarmentMeasurementsM)
    (gtype : GarmentType)
    (envelope : Option (List Vec3 × List ℚ)) : List FitIssue :=
  find_compression_zones body distance_map
  ++ find_gap_zones body distance_map
  ++ check_length body bm gm gtype
  ++ (match envelope with
      | none => []
      | some (ev, dists) => check_movement_conflicts body ev dists)

theorem addToZones_forall (P : ℚ → Prop) (z : BodyZone) (idx : ℕ) (d : ℚ)
    (acc : List ZoneGroup) (hd : P d)
    (hacc : ∀ g ∈ acc, g.2.2 ≠ [] ∧ ∀ q ∈ g.2.2, P q) :
    ∀ g ∈ addToZones z idx d acc, g.2.2 ≠ [] ∧ ∀ q ∈ g.2.2, P q := by
  induction acc with
  | nil =>
    intro g hg
    simp only [addToZones, List.mem_singleton] at hg
    subst hg
    refine ⟨by simp, ?_⟩
    intro q hq
    simp only [List.mem_singleton] at hq
    subst hq
    exact hd
  | cons hd' tl ih =>
    obtain ⟨z', is, ds⟩ := hd'
    intro g hg
    simp only [addToZones] at hg
    by_cases hz : z' = z
    · simp only [hz, if_pos] at hg
      rcases List.mem_cons.mp hg with h | h
      · subst h
        have hh := hacc (z', is, ds) (List.mem_cons_self _ _)
        refine ⟨by simp, ?_⟩
        intro q hq
        rcases List.mem_append.mp hq with h' | h'
        · exact hh.2 q h'
        · simp only [List.mem_singleton] at h'
          subst h'
          exact hd
      · exact hacc g (List.mem_cons_of_mem _ h)
    · simp only [hz, if_false] at hg
      rcases List.mem_cons.mp hg with h | h
      · subst h
        exact hacc (z', is, ds) (List.mem_cons_self _ _)
      · exact ih (fun g' hg' => hacc g' (List.mem_cons_of_mem _ hg')) g h

theorem foldl_addToZones_forall (body : BodyModelM) (distance_map : List ℚ)
    (P : ℚ → Prop) :
    ∀ (idxs : List ℕ) (acc : List ZoneGroup),
    (∀ i ∈ idxs, P (distance_map.getD i 0)) →
    (∀ g ∈ acc, g.2.2 ≠ [] ∧ ∀ q ∈ g.2.2, P q) →
    ∀ g ∈ idxs.foldl (fun acc i =>
        addToZones (classify_body_zone body (body.vertices.getD i Vec3.zero))
          i (distance_map.getD i 0) acc) acc,
      g.2.2 ≠ [] ∧ ∀ q ∈ g.2.2, P q := by
  intro idxs
  induction idxs with
  | nil =>
    intro acc _ hacc
    simpa using hacc
  | cons i idxs ih =>
    intro acc hidx hacc
    simp only [List.foldl_cons]
    exact ih _ (fun j hj => hidx j (List.mem_cons_of_mem _ hj))
      (addToZones_forall P _ i _ acc (hidx i (List.mem_cons_self _ _)) hacc)

theorem groupByZone_forall (body : BodyModelM) (distance_map : List ℚ)
    (P : ℚ → Prop) (idxs : List ℕ)
    (hidx : ∀ i ∈ idxs, P (distance_map.getD i 0)) :
    ∀ g ∈ groupByZone body distance_map idxs,
      g.2.2 ≠ [] ∧ ∀ q ∈ g.2.2, P q :=
  foldl_addToZones_forall body distance_map P idxs [] hidx (by simp)

theorem list_sum_neg {l : List ℚ} (hne : l ≠ []) (h : ∀ q ∈ l, q < 0) :
    l.sum < 0 := by
  induction l with
  | nil => exact absurd rfl hne
  | cons a l ih =>
    by_cases hl : l = []
    · subst hl
      simpa using h a (List.mem_cons_self _ _)
    · have h1 := h a (List.mem_cons_self _ _)
      have h2 := ih hl (fun q hq => h q (List.mem_cons_of_mem _ hq))
      simp only [List.sum_cons]
      linarith

theorem list_sum_pos {l : List ℚ} (hne : l ≠ []) (h : ∀ q ∈ l, 0 < q) :
    0 < l.sum := by
  induction l with
  | nil => exact absurd rfl hne
  | cons a l ih =>
    by_cases hl : l = []
    · subst hl
      simpa using h a (List.mem_cons_self _ _)
    · have h1 := h a (List.mem_cons_self _ _)
      have h2 := ih hl (fun q hq => h q (List.mem_cons_of_mem _ hq))
      simp only [List.sum_cons]
      linarith

theorem npMean_neg {l : List ℚ} (hne : l ≠ []) (h : ∀ q ∈ l, q < 0) :
    npMean l < 0 := by
  have hlen : 0 < (l.length : ℚ) := by
    have := List.length_pos.mpr hne
    exact_mod_cast this
  exact div_neg_of_neg_of_pos (list_sum_neg hne h) hlen

theorem npMean_pos {l : List ℚ} (hne : l ≠ []) (h : ∀ q ∈ l, 0 < q) :
    0 < npMean l := by
  have hlen : 0 < (l.length : ℚ) := by
    have := List.length_pos.mpr hne
    exact_mod_cast this
  exact div_pos (list_sum_pos hne h) hlen

theorem find_compression_zones_spec (body : BodyModelM) (distance_map : List ℚ) :
    ∀ issue ∈ find_compression_zones body distance_map,
      issue.issue_type = FitIssueType.COMPRESSION ∧ issue.amount < 0 := by
  intro issue hmem
  simp only [find_compression_zones] at hmem
  split at hmem
  · simp at hmem
  · rcases List.mem_map.mp hmem with ⟨g, hg, rfl⟩
    refine ⟨rfl, ?_⟩
    have hinv := groupByZone_forall body distance_map
      (fun q => q < COMPRESSION_THRESHOLD) _
      (fun i hi => of_decide_eq_true (List.mem_filter.mp hi).2) g hg
    exact npMean_neg hinv.1 (fun q hq => by
      have := hinv.2 q hq
      simp only [COMPRESSION_THRESHOLD] at this
      linarith)

theorem find_gap_zones_spec (body : BodyModelM) (distance_map : List ℚ) :
    ∀ issue ∈ find_gap_zones body distance_map,
      issue.issue_type = FitIssueType.GAP ∧ 0 < issue.amount := by
  intro issue hmem
  simp only [find_gap_zones] at hmem
  split at hmem
  · simp at hmem
  · rcases List.mem_map.mp hmem with ⟨g, hg, rfl⟩
    refine ⟨rfl, ?_⟩
    have hinv := groupByZone_forall body distance_map
      (fun q => q > GAP_THRESHOLD_MINOR) _
      (fun i hi => of_decide_eq_true (List.mem_filter.mp hi).2) g hg
    exact npMean_pos hinv.1 (fun q hq => by
      have := hinv.2 q hq
      simp only [GAP_THRESHOLD_MINOR] at this
      linarith)

theorem check_length_types (body : BodyModelM) (bm : BodyMeasurementsM)
    (gm : GarmentMeasurementsM) (gtype : GarmentType) :
    ∀ issue ∈ check_length body bm gm gtype,
      issue.issue_type = FitIssueType.TOO_SHORT := by
  intro issue h
  simp only [check_length, List.mem_append] at h
  rcases h with ((h | h) | h) | h <;> (split_ifs at h <;> simp_all)

theorem dedupInsert_snd_prop (P : FitIssue → Prop) (issue : FitIssue)
    (acc : List (BodyZone × FitIssue)) (hi : P issue)
    (hacc : ∀ p ∈ acc, P p.2) :
    ∀ p ∈ dedupInsert issue acc, P p.2 := by
  induction acc with
  | nil =>
    intro p hp
    simp only [dedupInsert, List.mem_singleton] at hp
    subst hp
    exact hi
  | cons hd tl ih =>
    obtain ⟨z, old⟩ := hd
    intro p hp
    simp only [dedupInsert] at hp
    split_ifs at hp
    · rcases List.mem_cons.mp hp with h | h
      · subst h; exact hi
      · exact hacc p (List.mem_cons_of_mem _ h)
    · rcases List.mem_cons.mp hp with h | h
      · subst h; exact hacc (z, old) (List.mem_cons_self _ _)
      · exact hacc p (List.mem_cons_of_mem _ h)
    · rcases List.mem_cons.mp hp with h | h
      · subst h; exact hacc (z, old) (List.mem_cons_self _ _)
      · exact ih (fun q hq => hacc q (List.mem_cons_of_mem _ hq)) p h

theorem foldl_dedup_prop (P : FitIssue → Prop) :
    ∀ (l : List FitIssue) (acc : List (BodyZone × FitIssue)),
    (∀ i ∈ l, P i) →
    (∀ p ∈ acc, P p.2) →
    ∀ p ∈ l.foldl (fun acc i => dedupInsert i acc) acc, P p.2 := by
  intro l
  induction l with
  | nil =>
    intro acc _ hacc
    simpa using hacc
  | cons a l ih =>
    intro acc hl hacc
    simp only [List.foldl_cons]
    exact ih _ (fun i hi => hl i (List.mem_cons_of_mem _ hi))
      (dedupInsert_snd_prop P a acc (hl a (List.mem_cons_self _ _)) hacc)

theorem check_movement_conflicts_types (body : BodyModelM)
    (expanded_verts : List Vec3) (distances : List ℚ) :
    ∀ issue ∈ check_movement_conflicts body expanded_verts distances,
      issue.issue_type = FitIssueType.MOVEMENT_CONFLICT := by
  intro issue h
  simp only [check_movement_conflicts] at h
  rcases List.mem_map.mp h with ⟨p, hp, rfl⟩
  refine foldl_dedup_prop (fun i => i.issue_type = FitIssueType.MOVEMENT_CONFLICT)
    _ [] ?_ (by simp) p hp
  intro i hi
  rcases List.mem_filterMap.mp hi with ⟨j, _, heq⟩
  split_ifs at heq
  all_goals first
  | (cases heq; rfl)
  | cases heq

/-- C3: in every assembled analysis, each issue of type compression has
a strictly negative amount, and each issue of type gap a strictly
positive amount. -/
theorem issue_amount_sign (body : BodyModelM) (distance_map : List ℚ)
    (bm : BodyMeasurementsM) (gm : GarmentMeasurementsM)
    (gtype : GarmentType) (envelope : Option (List Vec3 × List ℚ)) :
    ∀ issue ∈ analyze_issues body distance_map bm gm gtype envelope,
      (issue.issue_type = FitIssueType.COMPRESSION → issue.amount < 0)
      ∧ (issue.issue_type = FitIssueType.GAP → 0 < issue.amount) := by
  intro issue h
  simp only [analyze_issues, List.mem_append] at h
  rcases h with ((h | h) | h) | h
  · obtain ⟨h1, h2⟩ := find_compression_zones_spec body distance_map issue h
    constructor
    · intro _
      exact h2
    · intro hg
      rw [h1] at hg
      cases hg
  · obtain ⟨h1, h2⟩ := find_gap_zones_spec body distance_map issue h
    constructor
    · intro hc
      rw [h1] at hc
      cases hc
    · intro _
      exact h2
  · have ht := check_length_types body bm gm gtype issue h
    constructor
    · intro hc
      rw [ht] at hc
      cases hc
    · intro hg
      rw [ht] at hg
      cases hg
  · rcases envelope with _ | ⟨ev, dists⟩
    · simp at h
    · have ht := check_movement_conflicts_types body ev dists issue h
      constructor
      · intro hc
        rw [ht] at hc
        cases hc
      · intro hg
        rw [ht] at hg
        cases hg

theorem addToZones_keys (z : BodyZone) (idx : ℕ) (d : ℚ) (acc : List ZoneGroup) :
    (addToZones z idx d acc).map Prod.fst
      = if z ∈ acc.map Prod.fst then acc.map Prod.fst
        else acc.map Prod.fst ++ [z] := by
  induction acc with
  | nil => simp [addToZones]
  | cons hd tl ih =>
    obtain ⟨z', is, ds⟩ := hd
    by_cases hz : z' = z
    · subst hz
      simp [addToZones]
    · simp only [addToZones, hz, if_false, List.map_cons, ih]
      by_cases hmem : z ∈ tl.map Prod.fst
      · have : z ∈ (z', is, ds).1 :: tl.map Prod.fst := List.mem_cons_of_mem _ hmem
        simp_all
      · have : ¬ z ∈ (z' :: tl.map Prod.fst) := by
          simp only [List.mem_cons]
          rintro (h | h)
          · exact hz h.symm
          · exact hmem h
        simp_all

theorem addToZones_keys_nodup (z : BodyZone) (idx : ℕ) (d : ℚ)
    (acc : List ZoneGroup) (h : (acc.map Prod.fst).Nodup) :
    ((addToZones z idx d acc).map Prod.fst).Nodup := by
  rw [addToZones_keys]
  split_ifs with hmem
  · exact h
  · exact List.Nodup.append h (List.nodup_singleton z)
      (by simpa [List.disjoint_singleton] using hmem)

theorem foldl_addToZones_keys_nodup (body : BodyModelM) (distance_map : List ℚ) :
    ∀ (idxs : List ℕ) (acc : List ZoneGroup),
    (acc.map Prod.fst).Nodup →
    ((idxs.foldl (fun acc i =>
        addToZones (classify_body_zone body (body.vertices.getD i Vec3.zero))
          i (distance_map.getD i 0) acc) acc).map Prod.fst).Nodup := by
  intro idxs
  induction idxs with
  | nil =>
    intro acc hacc
    simpa using hacc
  | cons i idxs ih =>
    intro acc hacc
    simp only [List.foldl_cons]
    exact ih _ (addToZones_keys_nodup _ i _ acc hacc)

theorem groupByZone_keys_nodup (body : BodyModelM) (distance_map : List ℚ)
    (idxs : List ℕ) :
    ((groupByZone body distance_map idxs).map Prod.fst).Nodup :=
  foldl_addToZones_keys_nodup body distance_map idxs [] (by simp)

theorem find_compression_zones_zones_nodup (body : BodyModelM)
    (distance_map : List ℚ) :
    ((find_compression_zones body distance_map).map FitIssue.body_zone).Nodup := by
  simp only [find_compression_zones]
  split
  · simp
  · rw [List.map_map]
    have heq : (FitIssue.body_zone ∘ compressionIssueOfGroup body)
        = (Prod.fst : ZoneGroup → BodyZone) := by
      funext g
      rfl
    rw [heq]
    exact groupByZone_keys_nodup body distance_map _

theorem find_gap_zones_zones_nodup (body : BodyModelM)
    (distance_map : List ℚ) :
    ((find_gap_zones body distance_map).map FitIssue.body_zone).Nodup := by
  simp only [find_gap_zones]
  split
  · simp
  · rw [List.map_map]
    have heq : (FitIssue.body_zone ∘ gapIssueOfGroup body)
        = (Prod.fst : ZoneGroup → BodyZone) := by
      funext g
      rfl
    rw [heq]
    exact groupByZone_keys_nodup body distance_map _

theorem countP_le_one_of_zone_nodup (z : BodyZone) (l : List FitIssue)
    (h : (l.map FitIssue.body_zone).Nodup) (p : FitIssue → Bool)
    (hp : ∀ i, p i = true → i.body_zone = z) :
    l.countP p ≤ 1 := by
  induction l with
  | nil => simp
  | cons a l ih =>
    simp only [List.map_cons, List.nodup_cons] at h
    rw [List.countP_cons]
    by_cases hpa : p a = true
    · have h0 : l.countP p = 0 := by
        rw [List.countP_eq_zero]
        intro i hi hpi
        exact h.1 (by rw [hp a hpa, ← hp i hpi]; exact List.mem_map_of_mem _ hi)
      simp [h0, hpa]
    · have := ih h.2
      simp only [hpa, if_false, add_zero]
      exact this

/-- C4: in every assembled analysis, each body zone carries at most one
issue of type compression and at most one of type gap. -/
theorem zone_issue_unique (body : BodyModelM) (distance_map : List ℚ)
    (bm : BodyMeasurementsM) (gm : GarmentMeasurementsM)
    (gtype : GarmentType) (envelope : Option (List Vec3 × List ℚ))
    (z : BodyZone) :
    (analyze_issues body distance_map bm gm gtype envelope).countP
      (fun i => decide (i.issue_type = FitIssueType.COMPRESSION
        ∧ i.body_zone = z)) ≤ 1
    ∧ (analyze_issues body distance_map bm gm gtype envelope).countP
      (fun i => decide (i.issue_type = FitIssueType.GAP
        ∧ i.body_zone = z)) ≤ 1 := by
  have hgap0 : (find_gap_zones body distance_map).countP
      (fun i => decide (i.issue_type = FitIssueType.COMPRESSION
        ∧ i.body_zone = z)) = 0 := by
    rw [List.countP_eq_zero]
    intro i hi hp
    have := (find_gap_zones_spec body distance_map i hi).1
    have hp' := of_decide_eq_true hp
    rw [this] at hp'
    cases hp'.1
  have hcomp0 : (find_compression_zones body distance_map).countP
      (fun i => decide (i.issue_type = FitIssueType.GAP
        ∧ i.body_zone = z)) = 0 := by
    rw [List.countP_eq_zero]
    intro i hi hp
    have := (find_compression_zones_spec body distance_map i hi).1
    have hp' := of_decide_eq_true hp
    rw [this] at hp'
    cases hp'.1
  have hlen0 : ∀ t : FitIssueType, t ≠ FitIssueType.TOO_SHORT →
      (check_length body bm gm gtype).countP
        (fun i => decide (i.issue_type = t ∧ i.body_zone = z)) = 0 := by
    intro t ht
    rw [List.countP_eq_zero]
    intro i hi hp
    have := check_length_types body bm gm gtype i hi
    have hp' := of_decide_eq_true hp
    rw [this] at hp'
    exact ht hp'.1.symm
  have hmov0 : ∀ (ev : List Vec3) (dists : List ℚ) (t : FitIssueType),
      t ≠ FitIssueType.MOVEMENT_CONFLICT →
      (check_movement_conflicts body ev dists).countP
        (fun i => decide (i.issue_type = t ∧ i.body_zone = z)) = 0 := by
    intro ev dists t ht
    rw [List.countP_eq_zero]
    intro i hi hp
    have := check_movement_conflicts_types body ev dists i hi
    have hp' := of_decide_eq_true hp
    rw [this] at hp'
    exact ht hp'.1.symm
  have hcle : (find_compression_zones body distance_map).countP
      (fun i => decide (i.issue_type = FitIssueType.COMPRESSION
        ∧ i.body_zone = z)) ≤ 1 :=
    countP_le_one_of_zone_nodup z _
      (find_compression_zones_zones_nodup body distance_map) _
      (fun i hi => (of_decide_eq_true hi).2)
  have hgle : (find_gap_zones body distance_map).countP
      (fun i => decide (i.issue_type = FitIssueType.GAP
        ∧ i.body_zone = z)) ≤ 1 :=
    countP_le_one_of_zone_nodup z _
      (find_gap_zones_zones_nodup body distance_map) _
      (fun i hi => (of_decide_eq_true hi).2)
  rcases envelope with _ | ⟨ev, dists⟩
  · constructor
    · simp only [analyze_issues, List.countP_append]
      rw [hgap0, hlen0 _ (by simp)]
      simpa using hcle
    · simp only [analyze_issues, List.countP_append]
      rw [hcomp0, hlen0 _ (by simp)]
      simpa using hgle
  · constructor
    · simp only [analyze_issues, List.countP_append]
      rw [hgap0, hlen0 _ (by simp), hmov0 ev dists _ (by simp)]
      simpa using hcle
    · simp only [analyze_issues, List.countP_append]
      rw [hcomp0, hlen0 _ (by simp), hmov0 ev dists _ (by simp)]
      simpa using hgle

/-- Concrete body for witnesses: a single vertex at height 450 of a
1000-tall landmark-free body (relative height 0.45, hips band). -/
def hipBody : BodyModelM := ⟨[⟨0, 450, 0⟩], [], 0, 1000⟩

/-- Concrete distance map for witnesses: the single vertex sits 15mm
outside the garment (signed distance −15). -/
def hipDmap : List ℚ := [-15]

/-- Placeholder issue for `List.headD`. -/
def dummyIssue : FitIssue :=
  ⟨FitIssueType.SEAM_STRESS, FitIssueSeverity.MINOR, BodyZone.WAIST, Vec3.zero, 0, []⟩

theorem hip_analysis_eval :
    analyze_issues hipBody hipDmap {} {} GarmentType.PANTS none
    = [{ issue_type := FitIssueType.COMPRESSION,
         severity := FitIssueSeverity.MODERATE,
         body_zone := BodyZone.HIPS,
         location := ⟨0, 450, 0⟩,
         amount := -15,
         affected_vertices := [0] }] := by
  norm_num [analyze_issues, find_compression_zones, find_gap_zones, groupByZone,
    addToZones, classify_body_zone, lmNear, lmLookup, heightLadderZone,
    npMean, npMin, meanVec, check_length, check_movement_conflicts,
    compressionIssueOfGroup, gapIssueOfGroup, compressionSeverity,
    COMPRESSION_THRESHOLD, GAP_THRESHOLD_MINOR, hipBody, hipDmap,
    List.range_succ]

/-- Witness for C3: the hip-compression analysis produces an issue whose
amount is strictly negative. -/
theorem issue_amount_sign_witness :
    ((analyze_issues hipBody hipDmap {} {} GarmentType.PANTS none).headD
      dummyIssue).amount < 0 := by
  refine (issue_amount_sign hipBody hipDmap {} {} GarmentType.PANTS none _ ?_).1 ?_
  · simp [hip_analysis_eval]
  · simp [hip_analysis_eval]

/-- Embedding of a `ModificationRecommendation` (fit_analysis.py lines
76-95).  The free-text `instructions` field is presentation-only and
omitted. -/
structure ModificationRecommendation where
  issue : FitIssue
  modification_type : String
  amount : ℚ
  location : String
  priority : ℕ
deriving DecidableEq, Repr

/-- The `.value` string of each `BodyZone` member. -/
def zoneValue : BodyZone → String
  | BodyZone.SHOULDERS => "shoulders"
  | BodyZone.BUST => "bust"
  | BodyZone.WAIST => "waist"
  | BodyZone.HIPS => "hips"
  | BodyZone.CROTCH => "crotch"
  | BodyZone.THIGHS => "thighs"
  | BodyZone.KNEES => "knees"
  | BodyZone.CALVES => "calves"
  | BodyZone.ANKLES => "ankles"
  | BodyZone.TORSO_FRONT => "torso_front"
  | BodyZone.TORSO_BACK => "torso_back"

/-- Embedding of `FitAnalyzer._recommend_for_issue` (fit_analysis.py
lines 606-726): the zone-and-type dispatch table. -/
def recommend_for_issue (issue : FitIssue) (priority : ℕ) :
    Option ModificationRecommendation :=
  if issue.issue_type = FitIssueType.COMPRESSION then
    if issue.body_zone = BodyZone.SHOULDERS then
      some ⟨issue, "gusset", |issue.amount| + 20, "shoulder_seam", priority⟩
    else if issue.body_zone = BodyZone.HIPS ∨ issue.body_zone = BodyZone.THIGHS then
      some ⟨issue, "let_out", |issue.amount| + 10, "side_seam", priority⟩
    else if issue.body_zone = BodyZone.CROTCH then
      some ⟨issue, "gusset", |issue.amount| + 30, "crotch", priority⟩
    else none
  else if issue.issue_type = FitIssueType.GAP then
    if issue.body_zone = BodyZone.BUST then
      some ⟨issue, "dart", issue.amount, "bust", priority⟩
    else if issue.body_zone = BodyZone.WAIST then
      some ⟨issue, "take_in", issue.amount, "waist_seam", priority⟩
    else if issue.body_zone = BodyZone.HIPS then
      some ⟨issue, "take_in", issue.amount, "side_seam", priority⟩
    else none
  else if issue.issue_type = FitIssueType.TOO_SHORT then
    if issue.body_zone = BodyZone.ANKLES then
      some ⟨issue, "extension", issue.amount + 25, "hem", priority⟩
    else if issue.body_zone = BodyZone.CROTCH then
      some ⟨issue, "extension", issue.amount, "rise", priority⟩
    else if issue.body_zone = BodyZone.WAIST then
      some ⟨issue, "extension", issue.amount, "torso_length", priority⟩
    else none
  else if issue.issue_type = FitIssueType.MOVEMENT_CONFLICT then
    some ⟨issue, "gusset", issue.amount,
      String.append (zoneValue issue.body_zone) "_ease", priority⟩
  else none

/-- The character sequence of each `FitIssueSeverity.value` string;
Python's `sorted` compares these strings, not the severity rank. -/
def sevValueChars : FitIssueSeverity → List Char
  | FitIssueSeverity.MINOR => ['m', 'i', 'n', 'o', 'r']
  | FitIssueSeverity.MODERATE => ['m', 'o', 'd', 'e', 'r', 'a', 't', 'e']
  | FitIssueSeverity.SEVERE => ['s', 'e', 'v', 'e', 'r', 'e']
  | FitIssueSeverity.CRITICAL => ['c', 'r', 'i', 't', 'i', 'c', 'a', 'l']

/-- Python string comparison: lexicographic over code points. -/
def pyCharListLt : List Char → List Char → Bool
  | [], [] => false
  | [], _ :: _ => true
  | _ :: _, [] => false
  | a :: as, b :: bs =>
    if a.val < b.val then true
    else if b.val < a.val then false
    else pyCharListLt as bs

/-- Python tuple comparison of the sort key
`(issue.severity.value, issue.amount)` used in
`_generate_recommendations` (fit_analysis.py lines 594-596). -/
def issueKeyLtb (a b : FitIssue) : Bool :=
  if pyCharListLt (sevValueChars a.severity) (sevValueChars b.severity) then true
  else if pyCharListLt (sevValueChars b.severity) (sevValueChars a.severity) then false
  else decide (a.amount < b.amount)

/-- Stable insertion for descending order: `a` is placed before the
first element whose key is not above the key of `a` (Python
`sorted(..., reverse=True)` keeps the original order of equal keys). -/
def insertIssueDesc (a : FitIssue) : List FitIssue → List FitIssue
  | [] => [a]
  | b :: l => if issueKeyLtb a b then b :: insertIssueDesc a l else a :: b :: l

/-- Stable descending sort by `(severity.value, amount)`, the embedding
of `sorted(issues, key=lambda i: (i.severity.value, i.amount),
reverse=True)` (fit_analysis.py lines 594-596). -/
def sortIssuesDesc : List FitIssue → List FitIssue
  | [] => []
  | a :: l => insertIssueDesc a (sortIssuesDesc l)

/-- The priority-threading loop of `_generate_recommendations`
(fit_analysis.py lines 598-602). -/
def recLoop : List FitIssue → ℕ → List ModificationRecommendation
  | [], _ => []
  | i :: rest, priority =>
    match recommend_for_issue i priority with
    | some rec => rec :: recLoop rest (priority + 1)
    | none => recLoop rest priority

/-- Embedding of `FitAnalyzer._generate_recommendations`
(fit_analysis.py lines 588-604). -/
def generate_recommendations (issues : List FitIssue) :
    List ModificationRecommendation :=
  recLoop (sortIssuesDesc issues) 1

/-- Concrete critical compression issue at the crotch. -/
def critIssue : FitIssue :=
  ⟨FitIssueType.COMPRESSION, FitIssueSeverity.CRITICAL, BodyZone.CROTCH,
    Vec3.zero, -35, []⟩

/-- Concrete minor gap issue at the waist. -/
def minorIssue : FitIssue :=
  ⟨FitIssueType.GAP, FitIssueSeverity.MINOR, BodyZone.WAIST, Vec3.zero, 25, []⟩

/-- C5 (bug evidence): sorting uses the severity `.value` strings, which
order alphabetically as critical < minor < moderate < severe; on a
critical issue plus a minor issue the minor issue is processed first and
its recommendation gets priority 1, while the critical issue's
recommendation gets priority 2 — contradicting the documented intent
that the highest-severity issue comes first. -/
theorem recommendation_priority_string_sort_bug :
    (generate_recommendations [critIssue, minorIssue]).map
      (fun r => (r.issue.severity, r.priority))
    = [(FitIssueSeverity.MINOR, 1), (FitIssueSeverity.CRITICAL, 2)] := by
  decide

/-- C6 counterexample: with every hip vertex at signed distance exactly
−15 (premise of the claim), the produced compression issue has severity
moderate, not severe: −15 crosses only the −10 threshold. -/
theorem hip_severity_counterexample :
    (find_compression_zones hipBody hipDmap).map FitIssue.severity
      = [FitIssueSeverity.MODERATE]
    ∧ FitIssueSeverity.MODERATE ≠ FitIssueSeverity.SEVERE := by
  constructor
  · norm_num [find_compression_zones, groupByZone, addToZones,
      classify_body_zone, lmNear, lmLookup, heightLadderZone, npMin,
      compressionIssueOfGroup, compressionSeverity, COMPRESSION_THRESHOLD,
      hipBody, hipDmap, List.range_succ]
  · decide

theorem foldl_min_const (c : ℚ) :
    ∀ l : List ℚ, (∀ q ∈ l, q = c) → l.foldl min c = c := by
  intro l
  induction l with
  | nil => intro _; rfl
  | cons q l ih =>
    intro h
    have hq := h q (List.mem_cons_self _ _)
    subst hq
    simp only [List.foldl_cons, min_self]
    exact ih (fun q' hq' => h q' (List.mem_cons_of_mem _ hq'))

theorem npMin_const (c : ℚ) (l : List ℚ) (hne : l ≠ [])
    (h : ∀ q ∈ l, q = c) : npMin l = c := by
  rcases l with _ | ⟨x, xs⟩
  · exact absurd rfl hne
  · have hx := h x (List.mem_cons_self _ _)
    subst hx
    exact foldl_min_const x xs (fun q hq => h q (List.mem_cons_of_mem _ hq))

theorem sum_const_of_all_eq (c : ℚ) :
    ∀ l : List ℚ, (∀ q ∈ l, q = c) → l.sum = (l.length : ℚ) * c := by
  intro l
  induction l with
  | nil => intro _; simp
  | cons q l ih =>
    intro h
    have hq := h q (List.mem_cons_self _ _)
    subst hq
    have := ih (fun q' hq' => h q' (List.mem_cons_of_mem _ hq'))
    simp only [List.sum_cons, this, List.length_cons]
    push_cast
    ring

theorem npMean_const (c : ℚ) (l : List ℚ) (hne : l ≠ [])
    (h : ∀ q ∈ l, q = c) : npMean l = c := by
  have hlen : (l.length : ℚ) ≠ 0 := by
    have := List.length_pos.mpr hne
    positivity
  rw [npMean, sum_const_of_all_eq c l h]
  field_simp

theorem foldl_addToZones_single (body : BodyModelM) (dmap : List ℚ)
    (z : BodyZone) (c : ℚ) :
    ∀ idxs : List ℕ,
    (∀ i ∈ idxs, classify_body_zone body (body.vertices.getD i Vec3.zero) = z) →
    (∀ i ∈ idxs, dmap.getD i 0 = c) →
    ∀ (is0 : List ℕ) (ds0 : List ℚ),
    idxs.foldl (fun acc i =>
        addToZones (classify_body_zone body (body.vertices.getD i Vec3.zero))
          i (dmap.getD i 0) acc) [(z, is0, ds0)]
      = [(z, is0 ++ idxs, ds0 ++ idxs.map (fun _ => c))] := by
  intro idxs
  induction idxs with
  | nil =>
    intro _ _ is0 ds0
    simp
  | cons i rest ih =>
    intro hz hd is0 ds0
    have hzi := hz i (List.mem_cons_self _ _)
    have hdi := hd i (List.mem_cons_self _ _)
    simp only [List.foldl_cons, hzi, hdi, addToZones, if_pos]
    rw [ih (fun j hj => hz j (List.mem_cons_of_mem _ hj))
        (fun j hj => hd j (List.mem_cons_of_mem _ hj))]
    simp

theorem groupByZone_single (body : BodyModelM) (dmap : List ℚ)
    (z : BodyZone) (c : ℚ) (idxs : List ℕ) (hne : idxs ≠ [])
    (hz : ∀ i ∈ idxs, classify_body_zone body (body.vertices.getD i Vec3.zero) = z)
    (hd : ∀ i ∈ idxs, dmap.getD i 0 = c) :
    groupByZone body dmap idxs = [(z, idxs, idxs.map (fun _ => c))] := by
  rcases idxs with _ | ⟨i, rest⟩
  · exact absurd rfl hne
  · have hzi := hz i (List.mem_cons_self _ _)
    have hdi := hd i (List.mem_cons_self _ _)
    simp only [groupByZone, List.foldl_cons, addToZones, hzi, hdi]
    rw [foldl_addToZones_single body dmap z c rest
        (fun j hj => hz j (List.mem_cons_of_mem _ hj))
        (fun j hj => hd j (List.mem_cons_of_mem _ hj)) [i] [c]]
    simp

/-- C6 (amended): when every hip-classified vertex has signed distance
exactly −15mm and every other vertex stays inside the −5/+20
thresholds, the analyzer produces exactly one issue — a hip compression
of amount −15 and severity moderate (not severe: −15 only crosses the
−10 moderate threshold) — and one let-out recommendation of 25mm at the
side seam with priority 1. -/
theorem hip_uniform_compression_analysis (body : BodyModelM)
    (dmap : List ℚ) (bm : BodyMeasurementsM) (gm : GarmentMeasurementsM)
    (gtype : GarmentType)
    (hhip : ∀ i ∈ List.range dmap.length,
      classify_body_zone body (body.vertices.getD i Vec3.zero) = BodyZone.HIPS →
      dmap.getD i 0 = -15)
    (hother : ∀ i ∈ List.range dmap.length,
      classify_body_zone body (body.vertices.getD i Vec3.zero) ≠ BodyZone.HIPS →
      -5 ≤ dmap.getD i 0 ∧ dmap.getD i 0 ≤ 20)
    (hex : ∃ i ∈ List.range dmap.length,
      classify_body_zone body (body.vertices.getD i Vec3.zero) = BodyZone.HIPS)
    (hlen : check_length body bm gm gtype = []) :
    ∃ issue : FitIssue,
      analyze_issues body dmap bm gm gtype none = [issue]
      ∧ issue.issue_type = FitIssueType.COMPRESSION
      ∧ issue.body_zone = BodyZone.HIPS
      ∧ issue.severity = FitIssueSeverity.MODERATE
      ∧ issue.amount = -15
      ∧ generate_recommendations (analyze_issues body dmap bm gm gtype none)
        = [⟨issue, "let_out", 25, "side_seam", 1⟩] := by
  have hfilter : (List.range dmap.length).filter
      (fun i => decide (dmap.getD i 0 < COMPRESSION_THRESHOLD))
    = (List.range dmap.length).filter
      (fun i => decide (classify_body_zone body
        (body.vertices.getD i Vec3.zero) = BodyZone.HIPS)) := by
    apply List.filter_congr
    intro i hi
    by_cases hc : classify_body_zone body (body.vertices.getD i Vec3.zero)
        = BodyZone.HIPS
    · rw [hhip i hi hc, hc]
      decide
    · have hoth := hother i hi hc
      have hlt : ¬ (dmap.getD i 0 < COMPRESSION_THRESHOLD) := by
        simp only [COMPRESSION_THRESHOLD, not_lt]
        linarith [hoth.1]
      rw [decide_eq_false hlt, decide_eq_false hc]
  set hipIdxs := (List.range dmap.length).filter
    (fun i => decide (classify_body_zone body
      (body.vertices.getD i Vec3.zero) = BodyZone.HIPS)) with hhipIdxs
  have hne : hipIdxs ≠ [] := by
    rcases hex with ⟨i, hi, hc⟩
    intro hnil
    have hm : i ∈ hipIdxs := List.mem_filter.mpr ⟨hi, decide_eq_true hc⟩
    rw [hnil] at hm
    simp at hm
  have hz : ∀ i ∈ hipIdxs, classify_body_zone body
      (body.vertices.getD i Vec3.zero) = BodyZone.HIPS := by
    intro i hi
    exact of_decide_eq_true (List.mem_filter.mp hi).2
  have hd : ∀ i ∈ hipIdxs, dmap.getD i 0 = -15 := by
    intro i hi
    exact hhip i (List.mem_filter.mp hi).1 (hz i hi)
  have hgroup := groupByZone_single body dmap BodyZone.HIPS (-15) hipIdxs hne hz hd
  have hcomp : find_compression_zones body dmap
      = [compressionIssueOfGroup body
          (BodyZone.HIPS, hipIdxs, hipIdxs.map (fun _ => (-15 : ℚ)))] := by
    simp only [find_compression_zones, hfilter, ← hhipIdxs, hne, if_false, hgroup]
    simp
  have hmapne : hipIdxs.map (fun _ => (-15 : ℚ)) ≠ [] := by
    simpa using hne
  have hmapall : ∀ q ∈ hipIdxs.map (fun _ => (-15 : ℚ)), q = -15 := by
    intro q hq
    rcases List.mem_map.mp hq with ⟨_, _, rfl⟩
    rfl
  have hamount : npMean (hipIdxs.map (fun _ => (-15 : ℚ))) = -15 :=
    npMean_const _ _ hmapne hmapall
  have hreplne : List.replicate hipIdxs.length (-15 : ℚ) ≠ [] := by
    have hlenpos := List.length_pos.mpr hne
    intro hnil'
    have hlz : hipIdxs.length = 0 := by
      simpa using congrArg List.length hnil'
    omega
  have hamountR : npMean (List.replicate hipIdxs.length (-15 : ℚ)) = -15 :=
    npMean_const _ _ hreplne (fun q hq => List.eq_of_mem_replicate hq)
  have hminv : npMin (hipIdxs.map (fun _ => (-15 : ℚ))) = -15 :=
    npMin_const _ _ hmapne hmapall
  have hminvR : npMin (List.replicate hipIdxs.length (-15 : ℚ)) = -15 :=
    npMin_const _ _ hreplne (fun q hq => List.eq_of_mem_replicate hq)
  have hsev : compressionSeverity (npMin (hipIdxs.map (fun _ => (-15 : ℚ))))
      = FitIssueSeverity.MODERATE := by
    rw [hminv]
    norm_num [compressionSeverity]
  have hgap : find_gap_zones body dmap = [] := by
    have hnilf : (List.range dmap.length).filter
        (fun i => decide (dmap.getD i 0 > GAP_THRESHOLD_MINOR)) = [] := by
      rw [List.filter_eq_nil_iff]
      intro i hi
      simp only [GAP_THRESHOLD_MINOR, gt_iff_lt, decide_eq_true_eq, not_lt]
      by_cases hc : classify_body_zone body (body.vertices.getD i Vec3.zero)
          = BodyZone.HIPS
      · rw [hhip i hi hc]
        norm_num
      · exact (hother i hi hc).2
    unfold find_gap_zones
    rw [hnilf]
    simp
  have hissue : analyze_issues body dmap bm gm gtype none
      = [compressionIssueOfGroup body
          (BodyZone.HIPS, hipIdxs, hipIdxs.map (fun _ => (-15 : ℚ)))] := by
    simp [analyze_issues, hcomp, hgap, hlen]
  refine ⟨compressionIssueOfGroup body
    (BodyZone.HIPS, hipIdxs, hipIdxs.map (fun _ => (-15 : ℚ))), hissue,
    rfl, rfl, ?_, ?_, ?_⟩
  · simpa [compressionIssueOfGroup] using hsev
  · simpa [compressionIssueOfGroup] using hamount
  · rw [hissue]
    simp only [generate_recommendations, sortIssuesDesc, insertIssueDesc, recLoop,
      recommend_for_issue, compressionIssueOfGroup]
    norm_num [hamount, hamountR]
    simp

/-- Witness for C6 (amended): at the one-vertex hip body with distance
map [−15], the analyzer yields the single moderate hip-compression
issue and its priority-1 let-out recommendation of 25mm at the side
seam. -/
theorem hip_uniform_compression_analysis_witness :
    ∃ issue : FitIssue,
      analyze_issues hipBody hipDmap {} {} GarmentType.PANTS none = [issue]
      ∧ issue.issue_type = FitIssueType.COMPRESSION
      ∧ issue.body_zone = BodyZone.HIPS
      ∧ issue.severity = FitIssueSeverity.MODERATE
      ∧ issue.amount = -15
      ∧ generate_recommendations
          (analyze_issues hipBody hipDmap {} {} GarmentType.PANTS none)
        = [⟨issue, "let_out", 25, "side_seam", 1⟩] := by
  refine hip_uniform_compression_analysis hipBody hipDmap {} {} GarmentType.PANTS
    ?_ ?_ ?_ ?_
  · intro i hi _
    have h1 : i = 0 := by
      simpa [hipDmap] using hi
    subst h1
    rfl
  · intro i hi hc
    exfalso
    have h1 : i = 0 := by
      simpa [hipDmap] using hi
    subst h1
    apply hc
    norm_num [classify_body_zone, lmNear, lmLookup, heightLadderZone, hipBody]
  · refine ⟨0, ?_, ?_⟩
    · simp [hipDmap]
    · norm_num [classify_body_zone, lmNear, lmLookup, heightLadderZone, hipBody]
  · norm_num [check_length]

/-- Embedding of `PatternPieceType` from `pattern_generator.py`. -/
inductive PatternPieceType where
  | EXTENSION
  | GUSSET
  | DART
  | INSERT_PANEL
  | FACING
deriving DecidableEq, Repr

/-- Embedding of a `GeneratedPattern` (pattern_generator.py lines
54-83).  Presentation fields (name, labels, notches, grain line,
instructions) are omitted; `stitch_line` (a polygon offset through
normalised edge bisectors) and `area_mm2` (which multiplies by π for the
football gusset) are irrational in general and also omitted — the
claims under verification do not mention them. -/
structure GeneratedPattern where
  piece_type : PatternPieceType
  outline : List (ℚ × ℚ)
  seam_allowance : ℚ
  dimensions_mm : ℚ × ℚ
deriving DecidableEq, Repr

/-- Embedding of `PatternGenerator.SEAM_ALLOWANCES.get(fabric_type, 12)`
(pattern_generator.py lines 97-106). -/
def seamAllowanceFor (fabric_type : String) : ℚ :=
  if fabric_type = "woven" then 15
  else if fabric_type = "knit" then 10
  else if fabric_type = "denim" then 15
  else 12

/-- Embedding of `PatternGenerator._create_tapered_panel`
(pattern_generator.py lines 286-343). -/
def create_tapered_panel (sa height top_width bottom_width : ℚ) :
    GeneratedPattern :=
  let offset := (top_width - bottom_width) / 2
  { piece_type := PatternPieceType.EXTENSION
    outline := [(0, height), (top_width, height), (offset + bottom_width, 0),
      (offset, 0), (0, height)]
    seam_allowance := sa
    dimensions_mm := (max top_width bottom_width, height) }

/-- Embedding of `PatternGenerator._create_rectangular_panel`
(pattern_generator.py lines 345-392). -/
def create_rectangular_panel (sa width height : ℚ) : GeneratedPattern :=
  { piece_type := PatternPieceType.EXTENSION
    outline := [(0, height), (width, height), (width, 0), (0, 0), (0, height)]
    seam_allowance := sa
    dimensions_mm := (width, height) }

/-- Embedding of `PatternGenerator._create_diamond_gusset`
(pattern_generator.py lines 394-429). -/
def create_diamond_gusset (sa width height : ℚ) : GeneratedPattern :=
  { piece_type := PatternPieceType.GUSSET
    outline := [(width / 2, height), (width, height / 2), (width / 2, 0),
      (0, height / 2), (width / 2, height)]
    seam_allowance := sa
    dimensions_mm := (width, height) }

/-- Embedding of `PatternGenerator._create_football_gusset`
(pattern_generator.py lines 431-480): 20 samples of a parabolic curve
on top, the mirrored samples on the bottom, closed at the start. -/
def create_football_gusset (sa length width : ℚ) : GeneratedPattern :=
  let top := (List.range 20).map (fun i =>
    ((i : ℚ) / 19 * length,
     width / 2 + width / 2 * (1 - (2 * ((i : ℚ) / 19) - 1) ^ 2)))
  let bottom := ((List.range 20).reverse).map (fun i =>
    ((i : ℚ) / 19 * length,
     width / 2 - width / 2 * (1 - (2 * ((i : ℚ) / 19) - 1) ^ 2)))
  let pts := top ++ bottom
  { piece_type := PatternPieceType.GUSSET
    outline := pts ++ [pts.headD (0, 0)]
    seam_allowance := sa
    dimensions_mm := (length, width) }

/-- Embedding of `PatternGenerator._create_dart_marker`
(pattern_generator.py lines 482-512): a dart template is a fold guide,
not a cut piece, so its seam allowance is 0. -/
def create_dart_marker (dart_width dart_length : ℚ) : GeneratedPattern :=
  { piece_type := PatternPieceType.DART
    outline := [(dart_width / 2, dart_length), (dart_width, 0), (0, 0),
      (dart_width / 2, dart_length)]
    seam_allowance := 0
    dimensions_mm := (dart_width, dart_length) }

/-- Embedding of `PatternGenerator._generate_extension`
(pattern_generator.py lines 143-199). -/
def generate_extension (sa : ℚ) (gm : GarmentMeasurementsM)
    (rec : ModificationRecommendation) : Option GeneratedPattern :=
  let amount := rec.amount
  if rec.issue.body_zone = BodyZone.ANKLES then
    let top_circ := if gm.ankle_circumference = 0 then 200
      else gm.ankle_circumference
    let bottom_circ := top_circ * (19 / 20)
    let top_width := top_circ / 2 + sa * 2
    let bottom_width := bottom_circ / 2 + sa * 2
    some (create_tapered_panel sa (amount + sa * 2) top_width bottom_width)
  else if rec.issue.body_zone = BodyZone.CROTCH then
    let waist_circ := if gm.waist_circumference = 0 then 800
      else gm.waist_circumference
    some (create_rectangular_panel sa (waist_circ / 4 + sa * 2)
      (amount + sa * 2))
  else if rec.issue.body_zone = BodyZone.WAIST then
    let waist_circ := if gm.waist_circumference = 0 then 800
      else gm.waist_circumference
    some (create_rectangular_panel sa (waist_circ / 2 + sa * 2)
      (amount + sa * 2))
  else none

/-- Embedding of `PatternGenerator._generate_gusset`
(pattern_generator.py lines 201-238). -/
def generate_gusset (sa : ℚ) (gm : GarmentMeasurementsM)
    (rec : ModificationRecommendation) : Option GeneratedPattern :=
  let amount := rec.amount
  if rec.issue.body_zone = BodyZone.SHOULDERS then
    some (create_diamond_gusset sa (amount + sa * 2) (amount * (3 / 2)))
  else if rec.issue.body_zone = BodyZone.CROTCH then
    some (create_football_gusset sa (amount * 2) amount)
  else if rec.issue.body_zone = BodyZone.THIGHS
      ∨ rec.issue.body_zone = BodyZone.KNEES then
    some (create_diamond_gusset sa (amount + sa * 2) amount)
  else none

/-- Embedding of `PatternGenerator._generate_dart_template`
(pattern_generator.py lines 240-259). -/
def generate_dart_template (rec : ModificationRecommendation) :
    Option GeneratedPattern :=
  let amount := rec.amount
  some (create_dart_marker (amount / 2) (min (amount * 4) 150))

/-- Embedding of `PatternGenerator._generate_let_out_panel`
(pattern_generator.py lines 261-284). -/
def generate_let_out_panel (sa : ℚ) (gm : GarmentMeasurementsM)
    (rec : ModificationRecommendation) : Option GeneratedPattern :=
  let amount := rec.amount
  let height := if rec.issue.body_zone = BodyZone.HIPS
      ∨ rec.issue.body_zone = BodyZone.THIGHS then
    (if gm.outseam_length = 0 then 400 else gm.outseam_length / 2)
  else 200
  some (create_tapered_panel sa (height + sa * 2) (amount + sa * 2)
    (amount * (4 / 5) + sa * 2))

/-- Dispatch of `PatternGenerator.generate_from_recommendations`
(pattern_generator.py lines 108-141) for one recommendation; take-in
and unknown modification types produce no pattern. -/
def generate_pattern_for_rec (sa : ℚ) (gm : GarmentMeasurementsM)
    (rec : ModificationRecommendation) : Option GeneratedPattern :=
  if rec.modification_type = "extension" then generate_extension sa gm rec
  else if rec.modification_type = "gusset" then generate_gusset sa gm rec
  else if rec.modification_type = "dart" then generate_dart_template rec
  else if rec.modification_type = "let_out" then generate_let_out_panel sa gm rec
  else none

/-- Embedding of `PatternGenerator.generate_from_recommendations`
(pattern_generator.py lines 108-141). -/
def generate_from_recommendations (sa : ℚ) (gm : GarmentMeasurementsM)
    (recs : List ModificationRecommendation) : List GeneratedPattern :=
  recs.filterMap (generate_pattern_for_rec sa gm)

theorem seamAllowanceFor_pos (fabric_type : String) :
    0 < seamAllowanceFor fabric_type := by
  unfold seamAllowanceFor
  split_ifs <;> norm_num

theorem generate_extension_sa (sa : ℚ) (gm : GarmentMeasurementsM)
    (rec : ModificationRecommendation) (p : GeneratedPattern)
    (h : generate_extension sa gm rec = some p) : p.seam_allowance = sa := by
  simp only [generate_extension] at h
  cases hz : rec.issue.body_zone <;>
    simp_all [create_tapered_panel, create_rectangular_panel] <;>
    rw [← h]

theorem generate_gusset_sa (sa : ℚ) (gm : GarmentMeasurementsM)
    (rec : ModificationRecommendation) (p : GeneratedPattern)
    (h : generate_gusset sa gm rec = some p) : p.seam_allowance = sa := by
  simp only [generate_gusset] at h
  cases hz : rec.issue.body_zone <;>
    simp_all [create_diamond_gusset, create_football_gusset] <;>
    rw [← h]

theorem generate_let_out_panel_sa (sa : ℚ) (gm : GarmentMeasurementsM)
    (rec : ModificationRecommendation) (p : GeneratedPattern)
    (h : generate_let_out_panel sa gm rec = some p) : p.seam_allowance = sa := by
  simp only [generate_let_out_panel] at h
  cases hz : rec.issue.body_zone <;>
    simp_all [create_tapered_panel] <;>
    rw [← h]

/-- C7: for any fabric type, a dart recommendation always yields a
pattern with seam allowance exactly 0; every pattern generated for a
non-dart modification type has strictly positive seam allowance (the
fabric table value); and a take-in recommendation yields no pattern at
all.  `generate_from_recommendations` applies this per-recommendation
dispatch over the whole list. -/
theorem pattern_seam_allowance_by_type (fabric_type : String)
    (gm : GarmentMeasurementsM) (rec : ModificationRecommendation)
    (recs : List ModificationRecommendation) :
    (rec.modification_type = "dart" →
      ∃ p, generate_pattern_for_rec (seamAllowanceFor fabric_type) gm rec
          = some p ∧ p.seam_allowance = 0)
    ∧ (∀ p, generate_pattern_for_rec (seamAllowanceFor fabric_type) gm rec
          = some p → rec.modification_type ≠ "dart" → 0 < p.seam_allowance)
    ∧ (rec.modification_type = "take_in" →
      generate_pattern_for_rec (seamAllowanceFor fabric_type) gm rec = none)
    ∧ generate_from_recommendations (seamAllowanceFor fabric_type) gm recs
      = recs.filterMap
          (generate_pattern_for_rec (seamAllowanceFor fabric_type) gm) := by
  have hsa := seamAllowanceFor_pos fabric_type
  refine ⟨?_, ?_, ?_, rfl⟩
  · intro hmt
    refine ⟨create_dart_marker (rec.amount / 2) (min (rec.amount * 4) 150), ?_, rfl⟩
    simp [generate_pattern_for_rec, hmt, generate_dart_template]
  · intro p hp hne
    unfold generate_pattern_for_rec at hp
    by_cases h1 : rec.modification_type = "extension"
    · rw [if_pos h1] at hp
      rw [generate_extension_sa _ _ _ _ hp]
      exact hsa
    by_cases h2 : rec.modification_type = "gusset"
    · rw [if_neg h1, if_pos h2] at hp
      rw [generate_gusset_sa _ _ _ _ hp]
      exact hsa
    by_cases h3 : rec.modification_type = "let_out"
    · rw [if_neg h1, if_neg h2, if_neg hne, if_pos h3] at hp
      rw [generate_let_out_panel_sa _ _ _ _ hp]
      exact hsa
    · rw [if_neg h1, if_neg h2, if_neg hne, if_neg h3] at hp
      cases hp
  · intro hmt
    simp [generate_pattern_for_rec, hmt]

/-- Concrete dart recommendation for the witness. -/
def dartRec : ModificationRecommendation := ⟨minorIssue, "dart", 30, "bust", 1⟩

/-- Witness for C7: a 30mm dart recommendation on woven fabric yields a
pattern with seam allowance 0. -/
theorem pattern_seam_allowance_by_type_witness :
    ∃ p, generate_pattern_for_rec (seamAllowanceFor "woven") {} dartRec
        = some p ∧ p.seam_allowance = 0 :=
  (pattern_seam_allowance_by_type "woven" {} dartRec []).1 rfl

/-- An edge of the candidate seam-edge set: a sorted pair of vertex
indices (garment_model.py line 163). -/
abbrev Edge := ℕ × ℕ

/-- Embedding of the `vertex_to_edges` adjacency built in
`_chain_edges_to_seams` (garment_model.py lines 298-304): for each edge
in iteration order, the edge is appended under each of its two
endpoints (twice for a degenerate self-loop, as in the source). -/
def vertexToEdges (edges : List Edge) (v : ℕ) : List Edge :=
  edges.foldr (fun e acc =>
    (if e.1 = v then [e] else []) ++ (if e.2 = v then [e] else []) ++ acc) []

/-- Embedding of the inner `while True` extension loop of
`_chain_edges_to_seams` (garment_model.py lines 322-342): from the
current vertex, repeatedly take the first adjacent edge not yet used,
mark it used, and step to its other endpoint.  Returns the discovered
vertices in discovery order and the consumed edges; the used set after
the loop is `consumed ++ used`.  Each iteration consumes an edge not in
`used`, so `edges.length` fuel is never exhausted and the fuelled
recursion agrees with the unbounded source loop. -/
def extendDirE (vte : ℕ → List Edge) : ℕ → ℕ → List Edge → List ℕ × List Edge
  | 0, _, _ => ([], [])
  | fuel + 1, cur, used =>
    match (vte cur).filter (fun e => decide (e ∉ used)) with
    | [] => ([], [])
    | e :: _ =>
      let nxt := if e.2 = cur then e.1 else e.2
      let r := extendDirE vte fuel nxt (e :: used)
      (nxt :: r.1, r.2 ++ [e])

/-- Embedding of one iteration of the outer chain loop of
`_chain_edges_to_seams` (garment_model.py lines 314-342): the chain
starts as the two endpoints of the start edge; the first pass
(direction 0) starts from `chain_vertices[0]` and appends, the second
(direction −1) starts from the then-last element and prepends. -/
def chainFromE (edges : List Edge) (vte : ℕ → List Edge) (startEdge : Edge)
    (used : List Edge) : List ℕ × List Edge :=
  let fuel := edges.length
  let r1 := extendDirE vte fuel startEdge.1 (startEdge :: used)
  let chain1 := startEdge.1 :: startEdge.2 :: r1.1
  let r2 := extendDirE vte fuel (chain1.getLastD 0) (r1.2 ++ startEdge :: used)
  (r2.1.reverse ++ chain1, r2.2 ++ r1.2 ++ [startEdge])

/-- Embedding of the outer `for start_edge in edges` loop of
`_chain_edges_to_seams` (garment_model.py lines 310-356): used start
edges are skipped, chains of more than 3 vertices are kept (with the
edges they consumed), and consumed edges join the used set either
way. -/
def chainsLoopE (edges : List Edge) (vte : ℕ → List Edge) :
    List Edge → List Edge → List (List ℕ × List Edge)
  | [], _ => []
  | s :: rest, used =>
    if s ∈ used then chainsLoopE edges vte rest used
    else
      let c := chainFromE edges vte s used
      (if c.1.length > 3 then [c] else [])
        ++ chainsLoopE edges vte rest (c.2 ++ used)

/-- The chains produced by `_chain_edges_to_seams` together with the
candidate edges each chain consumed. -/
def chain_edges_to_seams_chains (edges : List Edge) :
    List (List ℕ × List Edge) :=
  chainsLoopE edges (vertexToEdges edges) edges []

/-- Embedding of `GarmentModel._chain_edges_to_seams` (garment_model.py
lines 293-358), reduced to the ordered vertex chains of the returned
seams (seam type classification and euclidean length are presentation
data not needed by the claims). -/
def chain_edges_to_seams (edges : List Edge) : List (List ℕ) :=
  (chain_edges_to_seams_chains edges).map Prod.fst

theorem extendDirE_fresh (vte : ℕ → List Edge) :
    ∀ (fuel cur : ℕ) (used : List Edge) (e : Edge),
      e ∈ (extendDirE vte fuel cur used).2 → e ∉ used := by
  intro fuel
  induction fuel with
  | zero =>
    intro cur used e he
    simp [extendDirE] at he
  | succ n ih =>
    intro cur used e he
    simp only [extendDirE] at he
    rcases hms : (vte cur).filter (fun e => decide (e ∉ used)) with _ | ⟨e0, rest⟩
    · simp only [hms] at he
      simp at he
    · simp only [hms] at he
      simp only [List.mem_append, List.mem_singleton] at he
      rcases he with he | he
      · have hni := ih _ _ e he
        intro hmem
        exact hni (List.mem_cons_of_mem _ hmem)
      · rw [he]
        have h0 : e0 ∈ (vte cur).filter (fun e => decide (e ∉ used)) := by
          rw [hms]
          exact List.mem_cons_self _ _
        exact of_decide_eq_true (List.mem_filter.mp h0).2

theorem chainFromE_fresh (edges : List Edge) (vte : ℕ → List Edge)
    (startEdge : Edge) (used : List Edge) (hs : startEdge ∉ used) :
    ∀ e ∈ (chainFromE edges vte startEdge used).2, e ∉ used := by
  intro e he
  simp only [chainFromE, List.mem_append, List.mem_singleton] at he
  rcases he with (he | he) | he
  · have hni := extendDirE_fresh vte _ _ _ e he
    intro hm
    exact hni (List.mem_append.mpr (Or.inr (List.mem_cons_of_mem _ hm)))
  · have hni := extendDirE_fresh vte _ _ _ e he
    intro hm
    exact hni (List.mem_cons_of_mem _ hm)
  · rw [he]
    exact hs

theorem chainsLoopE_fresh (edges : List Edge) (vte : ℕ → List Edge) :
    ∀ (starts used : List Edge),
      (∀ p ∈ chainsLoopE edges vte starts used, ∀ e ∈ p.2, e ∉ used)
      ∧ List.Pairwise (fun p q => ∀ e ∈ p.2, e ∉ q.2)
          (chainsLoopE edges vte starts used) := by
  intro starts
  induction starts with
  | nil =>
    intro used
    constructor
    · intro p hp
      simp [chainsLoopE] at hp
    · simp [chainsLoopE]
  | cons s rest ih =>
    intro used
    by_cases hs : s ∈ used
    · simp only [chainsLoopE, hs, if_pos]
      exact ih used
    · simp only [chainsLoopE, hs, if_false]
      have hfresh := chainFromE_fresh edges vte s used hs
      have hih := ih ((chainFromE edges vte s used).2 ++ used)
      by_cases hlen : (chainFromE edges vte s used).1.length > 3
      · simp only [hlen, if_pos, List.singleton_append]
        constructor
        · intro p hp
          rcases List.mem_cons.mp hp with hp | hp
          · subst hp
            exact hfresh
          · intro e he hm
            exact (hih.1 p hp e he) (List.mem_append.mpr (Or.inr hm))
        · refine List.Pairwise.cons ?_ hih.2
          intro q hq e he hmq
          exact (hih.1 q hq e hmq) (List.mem_append.mpr (Or.inl he))
      · simp only [hlen, if_false, List.nil_append]
        constructor
        · intro p hp e he hm
          exact (hih.1 p hp e he) (List.mem_append.mpr (Or.inr hm))
        · exact hih.2

/-- C8 (amended): distinct seams produced by the chaining algorithm
consume pairwise disjoint sets of candidate edges (each candidate edge
is consumed by at most one chain); the seam vertex chains are the first
components of these edge-annotated chains. -/
theorem seam_consumed_edges_disjoint (edges : List Edge) :
    chain_edges_to_seams edges
      = (chain_edges_to_seams_chains edges).map Prod.fst
    ∧ List.Pairwise (fun p q => ∀ e ∈ p.2, e ∉ q.2)
        (chain_edges_to_seams_chains edges) :=
  ⟨rfl, (chainsLoopE_fresh edges (vertexToEdges edges) edges []).2⟩

/-- Candidate seam edges of a three-armed star: three paths of four
edges each meeting at vertex 0. -/
def starEdges : List Edge :=
  [(0, 1), (1, 2), (2, 3), (3, 4),
   (0, 5), (5, 6), (6, 7), (7, 8),
   (0, 9), (9, 10), (10, 11), (11, 12)]

/-- C8 counterexample: on the three-armed star the algorithm returns
three seams, and their vertex chains are not pairwise disjoint — the
first chain passes through the junction vertex 0 (and vertex 1), which
also appear in the third (respectively second) chain. -/
theorem seam_vertex_overlap_counterexample :
    chain_edges_to_seams starEdges
      = [[0, 1, 5, 6, 7, 8], [4, 3, 1, 2], [12, 11, 10, 0, 9]]
    ∧ ¬ List.Pairwise (fun s t => ∀ v ∈ s, v ∉ t)
        (chain_edges_to_seams starEdges) := by
  constructor
  · decide
  · decide
